import Mathlib

/-!
Verification development for the bizcontactsdata resumable batch-crawl engine.

Shallow embedding of:
  - src/osm_one_location.py   (per-location fetch-and-classify against OSM)
  - src/places_one_location.py (per-location fetch-and-classify against Google Places)
  - src/runner_local.py       (cursor-aware batch runner: ledger, cursor, scheduler loop)

Provider calls are boundary IO: they are modelled by passing the provider
response (or a response strategy) in as data.  File contents (ledger file,
cursor file, output directory) are modelled as explicit values threaded
through the functions that read and write them.
-/

namespace BizContacts

/-! ## Python string and dict helpers -/

/-- Python str.lower (ASCII case folding suffices for the data involved). -/
def lower (s : String) : String := String.mk (s.toList.map Char.toLower)

/-- Does the first character list occur at the start of the second? -/
def startsWithChars : List Char → List Char → Bool
  | [], _ => true
  | _ :: _, [] => false
  | a :: as, b :: bs => a == b && startsWithChars as bs

/-- Does the first character list occur contiguously anywhere in the second? -/
def hasSubChars (needle : List Char) : List Char → Bool
  | [] => needle.isEmpty
  | b :: bs => startsWithChars needle (b :: bs) || hasSubChars needle bs

/-- Python substring containment: needle in hay. -/
def strContains (needle hay : String) : Bool := hasSubChars needle.toList hay.toList

/-- Python truthiness of an optional string (None and the empty string are falsy). -/
def truthy : Option String → Bool
  | some s => !s.isEmpty
  | none => false

/-- Python a or b for optional strings: first truthy operand, else b. -/
def pyOrOpt (a b : Option String) : Option String :=
  match a with
  | some s => if s.isEmpty then b else some s
  | none => b

/-- Python (a or b) collapsed to a string result, where b is already a string. -/
def pyOrStr (a : Option String) (b : String) : String :=
  match a with
  | some s => if s.isEmpty then b else s
  | none => b

/-! ## Configuration tables (src/config_osm.py and src/places_one_location.py) -/

/-- RETAIL_OSM_TAGS from src/config_osm.py. -/
def RETAIL_OSM_TAGS : List (String × String) :=
  [("shop", "supermarket"), ("shop", "grocery"), ("shop", "convenience"),
   ("shop", "greengrocer"),
   ("shop", "organic"), ("shop", "dairy"), ("shop", "cheese"), ("shop", "chocolate"),
   ("shop", "confectionery"), ("shop", "butcher"),
   ("shop", "florist"),
   ("shop", "cosmetics"), ("shop", "perfumery"), ("shop", "beauty"), ("shop", "chemist"),
   ("shop", "health_food"),
   ("shop", "department_store"), ("shop", "general"), ("shop", "variety_store"),
   ("shop", "alcohol"), ("shop", "beverages"), ("shop", "wine"), ("shop", "beer"),
   ("shop", "tobacco")]

/-- WHOLESALE_OSM_TAGS from src/config_osm.py. -/
def WHOLESALE_OSM_TAGS : List (String × String) :=
  [("shop", "wholesale"),
   ("wholesale", "food"), ("wholesale", "groceries"), ("wholesale", "beverages"),
   ("wholesale", "alcohol"), ("wholesale", "wine"), ("wholesale", "beer"),
   ("wholesale", "fruit"), ("wholesale", "vegetables"), ("wholesale", "meat"),
   ("wholesale", "seafood"), ("wholesale", "dairy"),
   ("wholesale", "cosmetics"), ("wholesale", "health_products"), ("wholesale", "chemicals")]

/-- OSM_TO_NAICS_RETAIL from src/config_osm.py (dict modelled as an association list). -/
def OSM_TO_NAICS_RETAIL : List ((String × String) × String) :=
  [(("shop", "supermarket"), "445110"), (("shop", "grocery"), "445110"),
   (("shop", "convenience"), "445120"),
   (("shop", "greengrocer"), "445230"),
   (("shop", "organic"), "445110"), (("shop", "dairy"), "445299"),
   (("shop", "cheese"), "445299"), (("shop", "chocolate"), "445292"),
   (("shop", "confectionery"), "445292"), (("shop", "butcher"), "445210"),
   (("shop", "florist"), "453110"),
   (("shop", "cosmetics"), "446120"), (("shop", "perfumery"), "446120"),
   (("shop", "beauty"), "446120"), (("shop", "chemist"), "446110"),
   (("shop", "health_food"), "446191"),
   (("shop", "department_store"), "452210"), (("shop", "general"), "452319"),
   (("shop", "variety_store"), "452319"),
   (("shop", "alcohol"), "445310"), (("shop", "beverages"), "445310"),
   (("shop", "wine"), "445310"), (("shop", "beer"), "445310"),
   (("shop", "tobacco"), "453991")]

/-- WHOLESALE_KEYWORD_TO_NAICS from src/config_osm.py (ordered list, first match wins). -/
def WHOLESALE_KEYWORD_TO_NAICS : List (String × String) :=
  [("frozen", "424420"), ("dairy", "424430"), ("seafood", "424460"), ("fish", "424460"),
   ("meat", "424470"), ("poultry", "424470"), ("fruit", "424480"), ("vegetable", "424480"),
   ("produce", "424480"), ("grocery", "424410"), ("general line", "424410"),
   ("food service", "424410"), ("beverage", "424490"), ("alcohol", "424820"),
   ("wine", "424820"), ("beer", "424810"), ("cosmetic", "424210"), ("health", "424210"),
   ("chemical", "424690")]

/-- DEFAULT_WHOLESALE_NAICS from src/config_osm.py. -/
def DEFAULT_WHOLESALE_NAICS : String := "424490"

/-- GOOGLE_TYPE_TO_NAICS from src/places_one_location.py. -/
def GOOGLE_TYPE_TO_NAICS : List (String × String) :=
  [("grocery_or_supermarket", "445110"), ("convenience_store", "445120"),
   ("clothing_store", "448140"), ("department_store", "452210"),
   ("electronics_store", "443142"), ("furniture_store", "442110"),
   ("hardware_store", "444130"), ("liquor_store", "445310"), ("pet_store", "453910"),
   ("pharmacy", "446110"), ("restaurant", "722511"), ("shoe_store", "448210"),
   ("supermarket", "445110")]

/-! ## Classifier: src/osm_one_location.py -/

/-- The lowercased name-plus-tags blob built inside infer_segment_and_naics. -/
def osmBlob (name : String) (tags : List (String × String)) : String :=
  lower (name ++ " " ++ String.intercalate " " (tags.map (fun p => p.1 ++ "=" ++ p.2)))

/-- infer_wholesale_naics from src/osm_one_location.py: first matching keyword in table
order, else the default code. -/
def infer_wholesale_naics (blob : String) : String :=
  match WHOLESALE_KEYWORD_TO_NAICS.find? (fun kc => strContains kc.1 blob) with
  | some kc => kc.2
  | none => DEFAULT_WHOLESALE_NAICS

/-- infer_segment_and_naics from src/osm_one_location.py. -/
def infer_segment_and_naics (name : String) (tags : List (String × String))
    (kv : String × String) : String × String :=
  let blob := osmBlob name tags
  if kv.1 = "shop" ∧ kv.2 = "wholesale" then ("wholesale", infer_wholesale_naics blob)
  else if strContains "wholesale" blob || strContains "distributor" blob ||
      strContains "merchant wholesaler" blob then
    ("wholesale", infer_wholesale_naics blob)
  else ("retail", (OSM_TO_NAICS_RETAIL.lookup kv).getD "")

/-- detect_matched_kv from src/osm_one_location.py: first configured (k, v) pair present in
the element tags (wholesale list first, then retail), else the generic shop=wholesale
fallback, else none. -/
def detect_matched_kv (tags : List (String × String)) : Option (String × String) :=
  match (WHOLESALE_OSM_TAGS ++ RETAIL_OSM_TAGS).find? (fun kv => tags.lookup kv.1 == some kv.2) with
  | some kv => some kv
  | none => if tags.lookup "shop" == some "wholesale" then some ("shop", "wholesale") else none

/-- The classification decision as applied per element in parse_elements:
infer_segment_and_naics when a configured tag was detected, else the search-pass hint
with an empty code. -/
def classify_element (name : String) (tags : List (String × String))
    (hint_segment : String) : String × String :=
  match detect_matched_kv tags with
  | some kv => infer_segment_and_naics name tags kv
  | none => (hint_segment, "")

/-! ## Classifier: src/places_one_location.py -/

/-- The lowercased types-plus-name blob built inside infer_naics_and_segment. -/
def placesBlob (name : String) (types : List String) : String :=
  lower (String.intercalate " " types) ++ " " ++ lower name

/-- detect_wholesale_naics_from_keywords from src/places_one_location.py. -/
def detect_wholesale_naics_from_keywords (keywords : String) : String :=
  let kw := lower keywords
  if strContains "frozen" kw then "424420"
  else if strContains "dairy" kw then "424430"
  else if strContains "seafood" kw || strContains "fish" kw then "424460"
  else if strContains "meat" kw || strContains "poultry" kw then "424470"
  else if strContains "fruit" kw || strContains "vegetable" kw || strContains "produce" kw then
    "424480"
  else if strContains "grocery" kw || strContains "general line" kw ||
      strContains "food service" kw then "424410"
  else "424490"

/-- infer_naics_and_segment from src/places_one_location.py.  Note the final fallback is
always retail, independent of which keyword pass found the candidate. -/
def infer_naics_and_segment (name : String) (types : List String) : String × String :=
  let blob := placesBlob name types
  if strContains "wholesale" blob || strContains "distributor" blob ||
      strContains "merchant wholesaler" blob then
    (detect_wholesale_naics_from_keywords blob, "wholesale")
  else
    match types.find? (fun t => (GOOGLE_TYPE_TO_NAICS.lookup t).isSome) with
    | some t => ((GOOGLE_TYPE_TO_NAICS.lookup t).getD "", "retail")
    | none => ("", "retail")

/-! ## Geocoding boundary call: geocode_nominatim (src/osm_one_location.py) -/

/-- One HTTP exchange with the Nominatim geocoder, as observed by the caller:
a network timeout (requests.get raises), or a completed response with a status code
and a body.  body = none models a payload r.json() cannot parse; otherwise the body
is the parsed list of hits, each carrying the float lat/lon already converted. -/
inductive NominatimResponse
  | timeout
  | status (code : Nat) (body : Option (List (ℚ × ℚ)))
deriving DecidableEq

/-- Outcome of one geocode_nominatim call: an uncaught exception (raised), the explicit
ZERO_RESULTS pair (None, None), or a coordinate. -/
inductive GeocodeOutcome
  | raised
  | notFound
  | found (lat lon : ℚ)
deriving DecidableEq

/-- The body of geocode_nominatim applied to the single response it receives:
requests.get with a timeout raises; r.raise_for_status raises on any 4xx/5xx status
(throttling included); a malformed payload makes r.json raise; an empty result list is
ZERO_RESULTS; otherwise the first hit is returned.  No except handler is present, so
every raise propagates out of the function. -/
def geocode_once (resp : NominatimResponse) : GeocodeOutcome :=
  match resp with
  | .timeout => .raised
  | .status code body =>
    if 400 ≤ code ∧ code ≤ 599 then .raised
    else
      match body with
      | none => .raised
      | some [] => .notFound
      | some (h :: _) => .found h.1 h.2

/-- geocode_nominatim from src/osm_one_location.py, against a provider strategy giving the
response to each successive request.  The source contains no retry loop: the function
issues exactly one requests.get, so only the response to request 0 is ever consumed and
the attempt count is always 1 (the second component). -/
def geocode_nominatim (provider : Nat → NominatimResponse) : GeocodeOutcome × Nat :=
  (geocode_once (provider 0), 1)

/-! ## OSM elements and parse_elements (src/osm_one_location.py) -/

/-- One Overpass element: its JSON type field, numeric id, tag dictionary
(association list in document order), optional top-level lat/lon (nodes) and
optional center (ways/relations). -/
structure OsmElement where
  etype : Option String
  id : Int
  tags : List (String × String)
  lat : Option ℚ
  lon : Option ℚ
  center : Option (ℚ × ℚ)
deriving DecidableEq

/-- element_uid from src/osm_one_location.py: first character of the type
(default "?") joined with the id. -/
def element_uid (el : OsmElement) : String :=
  (el.etype.getD "?").take 1 ++ "_" ++ toString el.id

/-- extract_center from src/osm_one_location.py. -/
def extract_center (el : OsmElement) : Option ℚ × Option ℚ :=
  match el.lat, el.lon with
  | some la, some lo => (some la, some lo)
  | _, _ =>
    match el.center with
    | some c => (some c.1, some c.2)
    | none => (none, none)

/-- extract_address from src/osm_one_location.py. -/
def extract_address (el : OsmElement) : String :=
  let tags := el.tags
  match tags.lookup "addr:full" with
  | some full => full
  | none =>
    let hn := tags.lookup "addr:housenumber"
    let st := tags.lookup "addr:street"
    let city := pyOrOpt (tags.lookup "addr:city")
      (pyOrOpt (tags.lookup "addr:town") (tags.lookup "addr:village"))
    let state := tags.lookup "addr:state"
    let postcode := tags.lookup "addr:postcode"
    let parts : List String :=
      (if truthy hn && truthy st then [hn.getD "" ++ " " ++ st.getD ""]
       else if truthy st then [st.getD ""] else []) ++
      (if truthy city then [city.getD ""] else []) ++
      (if truthy state then [state.getD ""] else []) ++
      (if truthy postcode then [postcode.getD ""] else [])
    String.intercalate ", " (parts.filter (fun p => !p.isEmpty))

/-- extract_phone from src/osm_one_location.py. -/
def extract_phone (tags : List (String × String)) : String :=
  pyOrStr (tags.lookup "contact:phone") (pyOrStr (tags.lookup "phone") "")

/-- extract_website from src/osm_one_location.py. -/
def extract_website (tags : List (String × String)) : String :=
  pyOrStr (tags.lookup "contact:website") (pyOrStr (tags.lookup "website") "")

/-- build_type_string from src/osm_one_location.py. -/
def build_type_string (tags : List (String × String)) : String :=
  String.intercalate ", "
    ((["shop", "amenity", "wholesale", "industry", "product", "brand",
       "operator"]).filterMap
      (fun key => (tags.lookup key).map (fun v => key ++ "=" ++ v)))

/-- One output record as assembled by parse_elements (and, with the same columns,
by the Places pipeline). -/
structure Row where
  location : String
  searchKeyword : String
  segment : String
  naics : String
  businessName : String
  address : String
  phone : String
  website : String
  lat : Option ℚ
  lon : Option ℚ
  rating : String
  userRatings : String
  placeId : String
  types : String
deriving DecidableEq

/-- The row parse_elements appends for one element. -/
def mkElementRow (el : OsmElement) (location hint_segment : String) : Row :=
  let tags := el.tags
  let name := (tags.lookup "name").getD ""
  let c := extract_center el
  let sn := classify_element name tags hint_segment
  { location := location
    searchKeyword := ""
    segment := sn.1
    naics := sn.2
    businessName := name
    address := extract_address el
    phone := extract_phone tags
    website := extract_website tags
    lat := c.1
    lon := c.2
    rating := ""
    userRatings := ""
    placeId := element_uid el
    types := build_type_string tags }

/-- parse_elements from src/osm_one_location.py: walk the elements, skip any whose uid is
already in the seen set, add the uid and emit a row otherwise.  Returns the rows together
with the final seen set (the Python set is mutated in place and shared across passes). -/
def parse_elements : List OsmElement → String → String → List String → List Row × List String
  | [], _, _, seen => ([], seen)
  | el :: rest, location, hint, seen =>
    let uid := element_uid el
    if uid ∈ seen then parse_elements rest location hint seen
    else
      let out := parse_elements rest location hint (uid :: seen)
      (mkElementRow el location hint :: out.1, out.2)

/-- run_one_location_osm from src/osm_one_location.py, with the boundary results passed in
as data: the geocode outcome and the element lists returned by the retail and wholesale
Overpass queries.  A raised geocode propagates (the script crashes), modelled as error.
A falsy latitude (None from ZERO_RESULTS, or the float 0.0) yields an empty frame.
Otherwise both passes are parsed against one shared seen set, retail first. -/
def run_one_location_osm (location : String) (geo : GeocodeOutcome)
    (retailEls wholesaleEls : List OsmElement) : Except Unit (List Row) :=
  match geo with
  | .raised => .error ()
  | .notFound => .ok []
  | .found lat _ =>
    if lat = 0 then .ok []
    else
      let p1 := parse_elements retailEls location "retail" []
      let p2 := parse_elements wholesaleEls location "wholesale" p1.2
      .ok (p1.1 ++ p2.1)

/-! ## Dedup Ledger (src/runner_local.py: load_seen_ids, append_seen_ids) -/

/-- One line of state_dedupe.jsonl as load_seen_ids sees it after strip():
blank (skipped by the continue), unparsable JSON (the except swallows it), or a parsed
object whose optional place_id field is carried (already through str()). -/
inductive LedgerLine
  | blank
  | invalid
  | obj (place_id : Option String)
deriving DecidableEq

/-- Set insertion for a seen set modelled as a duplicate-free list. -/
def insertSet (s : List String) (x : String) : List String :=
  if x ∈ s then s else s ++ [x]

/-- One line step of load_seen_ids: only a parsed object with a truthy place_id
adds to the set. -/
def seenStep (seen : List String) : LedgerLine → List String
  | .blank => seen
  | .invalid => seen
  | .obj pid =>
    match pid with
    | some s => if s.isEmpty then seen else insertSet seen s
    | none => seen

/-- load_seen_ids from src/runner_local.py.  none models a missing file (path.exists()
false): the result is the empty set and the run proceeds. -/
def load_seen_ids : Option (List LedgerLine) → List String
  | none => []
  | some lines => lines.foldl seenStep []

/-- Whether a ledger line contributes an id (parsed object with truthy place_id). -/
def LedgerLine.isParsedId : LedgerLine → Bool
  | .obj (some s) => !s.isEmpty
  | _ => false

/-- append_seen_ids from src/runner_local.py: appends one json line per id
(nothing when the set is empty). -/
def append_seen_ids (ledger : List String) (place_ids : List String) : List String :=
  ledger ++ place_ids

/-! ## Cursor Store (src/runner_local.py: load_cursor, save_cursor) -/

/-- The parsed cursor object: optional index and total fields (obj.get defaults
are applied at the use site). -/
structure CursorObj where
  index : Option Int
  total : Option Int
deriving DecidableEq

/-- cursor.json as load_cursor sees it: missing file, unparsable content (json or int
conversion raises, caught by the except), or a parsed object. -/
inductive CursorFile
  | missing
  | unparsable
  | obj (o : CursorObj)
deriving DecidableEq

/-- load_cursor from src/runner_local.py: the starting index, reset to 0 when the file is
missing or unreadable, the stored total differs from the fresh count, or the stored
index is out of range. -/
def load_cursor (f : CursorFile) (total_count : Nat) : Int :=
  match f with
  | .missing => 0
  | .unparsable => 0
  | .obj o =>
    if o.total.getD (total_count : Int) ≠ (total_count : Int) ∨ o.index.getD 0 < 0 ∨
        (total_count : Int) ≤ o.index.getD 0 then 0
    else o.index.getD 0

/-- save_cursor from src/runner_local.py: writes both fields. -/
def save_cursor (index : Int) (total_count : Int) : CursorFile :=
  .obj { index := some index, total := some total_count }

/-- The loading phase of main (src/runner_local.py lines 214-217): the starting index
from the cursor file and the seen set from the ledger file.  The two reads are
independent. -/
def loadPhase (cursorF : CursorFile) (ledgerF : Option (List LedgerLine))
    (total : Nat) : Int × List String :=
  (load_cursor cursorF total, load_seen_ids ledgerF)

/-! ## Batch Scheduler (src/runner_local.py: run_one and the main loop) -/

/-- The observable outcome of one subprocess invocation of the one-location script:
a nonzero exit (any uncaught exception, a throttled or failed provider call included),
or exit 0 with the rows of the CSV files the script created in the project root. -/
inductive FetchOutcome
  | failed
  | succeeded (rows : List Row)
deriving DecidableEq

/-- The set of Place ID values of a list of rows (extract_place_ids_from_csv over the
moved CSV files, collected as a set). -/
def rowIds (rows : List Row) : List String :=
  rows.foldl (fun acc r => insertSet acc r.placeId) []

/-- run_one from src/runner_local.py, projected to its state effect: on failure it
returns the empty id set and moves nothing; on success it moves every created CSV row to
outputs/ unchanged and returns all their Place IDs.  First component: rows moved into the
Output Sink; second: the returned id set. -/
def run_one : FetchOutcome → List Row × List String
  | .failed => ([], [])
  | .succeeded rows => (rows, rowIds rows)

/-- Python set difference a - b for seen sets. -/
def diffSet (a b : List String) : List String := a.filter (fun x => x ∉ b)

/-- Python set union a |= b for seen sets. -/
def unionSet (a b : List String) : List String := b.foldl insertSet a

/-- The scheduler state threaded by main: the in-memory seen set, the ledger file
contents, the rows accumulated in outputs/, the loop index, the cursor file, and the
run counters. -/
structure SchedState where
  seen : List String
  ledger : List String
  outputs : List Row
  idx : Nat
  cursor : CursorFile
  processed : Nat
  new_ids_total : Nat
deriving DecidableEq

/-- One iteration of the main loop body (src/runner_local.py lines 240-254) on a chosen
location, given the fetch outcome: call run_one (which moves the CSVs into outputs/),
diff the returned ids against the seen set, append only the unseen ids to the ledger,
fold all returned ids into the seen set, bump the counters, advance the index with
wrap-around and save the cursor immediately. -/
def mainStep (total : Nat) (s : SchedState) (outcome : FetchOutcome) : SchedState :=
  let mv := run_one outcome
  let new_ids := mv.2
  let new_unique := diffSet new_ids s.seen
  let idx2 := (s.idx + 1) % total
  { seen := unionSet s.seen new_ids
    ledger := append_seen_ids s.ledger new_unique
    outputs := s.outputs ++ mv.1
    idx := idx2
    cursor := save_cursor (idx2 : Int) (total : Int)
    processed := s.processed + 1
    new_ids_total := s.new_ids_total + new_unique.length }

/-- The stop test performed at the top of each loop iteration (src/runner_local.py lines
228-238): when MAX_JOB_SECONDS is truthy (nonzero) only the elapsed-time window is
consulted; only when it is zero is the processed count compared against BATCH_SIZE. -/
def stop_check (maxJobSeconds batchSize : Int) (elapsed : ℚ) (processed : Nat) : Bool :=
  if maxJobSeconds ≠ 0 then decide ((maxJobSeconds : ℚ) ≤ elapsed)
  else decide (batchSize ≤ (processed : Int))

/-- One guarded loop iteration: the stop conditions are checked before the location at
the current index is taken; none means the loop exits without processing it. -/
def loop_iter (maxJobSeconds batchSize : Int) (elapsed : ℚ) (total : Nat)
    (s : SchedState) (outcome : FetchOutcome) : Option SchedState :=
  if stop_check maxJobSeconds batchSize elapsed s.processed then none
  else some (mainStep total s outcome)

/-- The sequence of indices at which successive loop iterations take their location,
over n iterations with the given per-iteration fetch outcomes. -/
def schedTrace (total : Nat) (outcomes : Nat → FetchOutcome) : SchedState → Nat → List Nat
  | _, 0 => []
  | s, n + 1 =>
    s.idx :: schedTrace total (fun k => outcomes (k + 1)) (mainStep total s (outcomes 0)) n

/-! ## Concrete sample data used by counterexamples and witnesses -/

/-- A sample retail row, matching the spec scenario (a supermarket named Hannaford). -/
def sampleRow : Row :=
  { location := "Northwood, NH"
    searchKeyword := ""
    segment := "retail"
    naics := "445110"
    businessName := "Hannaford"
    address := ""
    phone := ""
    website := ""
    lat := none
    lon := none
    rating := ""
    userRatings := ""
    placeId := "n_101"
    types := "shop=supermarket" }

/-- A scheduler state whose Ledger (and in-memory seen set) already holds the id of
sampleRow. -/
def sampleState : SchedState :=
  { seen := ["n_101"]
    ledger := ["n_101"]
    outputs := []
    idx := 0
    cursor := CursorFile.missing
    processed := 0
    new_ids_total := 0 }

/-- sampleState positioned at index 1 of a three-entry location list. -/
def sampleState3 : SchedState :=
  { sampleState with idx := 1 }

/-- A provider that answers every request with HTTP 429 (throttled). -/
def alwaysThrottle : Nat → NominatimResponse :=
  fun _ => NominatimResponse.status 429 (some [])

/-- A sample supermarket node element. -/
def sampleEl : OsmElement :=
  { etype := some "node"
    id := 101
    tags := [("shop", "supermarket"), ("name", "Hannaford")]
    lat := some 43
    lon := some (-71)
    center := none }

/-! ## Theorems -/

/-- Claim C2: for every stored cursor file content and freshly loaded list length
total > 0, the loaded index satisfies 0 ≤ i < total; a stored-total mismatch, a
negative or too-large stored index, or an unparsable file resets the index to 0; and
the loading phase builds the same seen set whatever the cursor file holds, so a cursor
reset leaves the Dedup Ledger unchanged. -/
theorem load_cursor_bounds (f : CursorFile) (total : Nat) (h : 0 < total) :
    (0 ≤ load_cursor f total ∧ load_cursor f total < total) ∧
    (∀ o : CursorObj, f = CursorFile.obj o →
      (o.total.getD (total : Int) ≠ (total : Int) ∨ o.index.getD 0 < 0 ∨
        (total : Int) ≤ o.index.getD 0) →
      load_cursor f total = 0) ∧
    (f = CursorFile.unparsable → load_cursor f total = 0) ∧
    (∀ (lf : Option (List LedgerLine)) (f2 : CursorFile),
      (loadPhase f lf total).2 = (loadPhase f2 lf total).2) := by
  refine ⟨?_, ?_, ?_, ?_⟩
  · cases f with
    | missing => simp only [load_cursor]; omega
    | unparsable => simp only [load_cursor]; omega
    | obj o =>
      simp only [load_cursor]
      split
      · omega
      · rename_i hcond
        omega
  · intro o hf hcond
    subst hf
    simp only [load_cursor]
    exact if_pos hcond
  · intro hf; subst hf; rfl
  · intro lf f2; rfl

/-- Witness for load_cursor_bounds at a concrete stored cursor and list length. -/
theorem load_cursor_bounds_witness :
    0 ≤ load_cursor (CursorFile.obj { index := some 2, total := some 5 }) 5 ∧
      load_cursor (CursorFile.obj { index := some 2, total := some 5 }) 5 < (5 : Nat) :=
  (load_cursor_bounds (CursorFile.obj { index := some 2, total := some 5 }) 5
    (by decide)).1

/-- Claim C10: cursor persistence round-trips: saving (i, t) and loading against the
unchanged length t returns i whenever 0 ≤ i < t; loading against a different length
returns 0; and an out-of-range saved index loads as 0. -/
theorem cursor_roundtrip (i t : Int) (t2 : Nat) (ht : 0 < t) :
    ((t2 : Int) = t → 0 ≤ i → i < t → load_cursor (save_cursor i t) t2 = i) ∧
    ((t2 : Int) ≠ t → load_cursor (save_cursor i t) t2 = 0) ∧
    ((i < 0 ∨ t ≤ i) → load_cursor (save_cursor i t) t2 = 0) := by
  refine ⟨fun h1 h2 h3 => ?_, fun h1 => ?_, fun h1 => ?_⟩ <;>
    simp only [load_cursor, save_cursor, Option.getD_some] <;> split <;> omega

/-- Witness for cursor_roundtrip at concrete indices and lengths. -/
theorem cursor_roundtrip_witness :
    load_cursor (save_cursor 2 5) 5 = 2 ∧ load_cursor (save_cursor 2 5) 7 = 0 ∧
      load_cursor (save_cursor 9 5) 5 = 0 :=
  ⟨(cursor_roundtrip 2 5 5 (by decide)).1 (by decide) (by decide) (by decide),
   (cursor_roundtrip 2 5 7 (by decide)).2.1 (by decide),
   (cursor_roundtrip 9 5 5 (by decide)).2.2 (by decide)⟩

/-- Claim C9: the stop conditions are evaluated before the location at the current index
is processed, and exactly one budget governs a run: with a nonzero time budget the check
is the elapsed-time comparison and is independent of the batch size and processed count;
with a zero time budget the check is the processed-count comparison and is independent of
the elapsed time. -/
theorem stop_conditions (M B : Int) (e : ℚ) (p : Nat) :
    (M ≠ 0 → stop_check M B e p = decide ((M : ℚ) ≤ e) ∧
      ∀ (B2 : Int) (p2 : Nat), stop_check M B e p = stop_check M B2 e p2) ∧
    (M = 0 → stop_check M B e p = decide (B ≤ (p : Int)) ∧
      ∀ e2 : ℚ, stop_check M B e p = stop_check M B e2 p) ∧
    (∀ (total : Nat) (s : SchedState) (o : FetchOutcome),
      stop_check M B e s.processed = true → loop_iter M B e total s o = none) ∧
    (∀ (total : Nat) (s : SchedState) (o : FetchOutcome),
      stop_check M B e s.processed = false →
        loop_iter M B e total s o = some (mainStep total s o)) := by
  refine ⟨fun hM => ⟨?_, fun B2 p2 => ?_⟩, fun hM => ⟨?_, fun e2 => ?_⟩, ?_, ?_⟩
  · simp only [stop_check, if_pos hM]
  · simp only [stop_check, if_pos hM]
  · simp only [stop_check, hM]; simp
  · simp only [stop_check, hM]; simp
  · intro total s o hstop
    simp only [loop_iter, hstop]
    simp
  · intro total s o hstop
    simp only [loop_iter, hstop]
    simp

/-- Witness for stop_conditions: with the default 16200-second window configured, the
batch-size budget is never consulted. -/
theorem stop_conditions_witness :
    stop_check 16200 1000000 (20000 : ℚ) 3 = stop_check 16200 5 (20000 : ℚ) 999 := by
  have h := (stop_conditions 16200 1000000 (20000 : ℚ) 3).1 (by decide)
  exact h.2 5 999

/-- Claim C4: on a definitive location failure (nonzero subprocess exit, covering a fatal
provider status or any uncaught error) the step leaves the Ledger, the seen set and the
Output Sink untouched, still advances the index by one with wrap-around, and immediately
persists the advanced cursor. -/
theorem failed_location_advances (total : Nat) (s : SchedState) :
    (mainStep total s FetchOutcome.failed).ledger = s.ledger ∧
    (mainStep total s FetchOutcome.failed).seen = s.seen ∧
    (mainStep total s FetchOutcome.failed).outputs = s.outputs ∧
    (mainStep total s FetchOutcome.failed).idx = (s.idx + 1) % total ∧
    (mainStep total s FetchOutcome.failed).cursor =
      save_cursor (((s.idx + 1) % total : Nat) : Int) (total : Int) ∧
    (mainStep total s FetchOutcome.failed).processed = s.processed + 1 := by
  refine ⟨?_, ?_, ?_, rfl, rfl, rfl⟩ <;>
    simp [mainStep, run_one, diffSet, unionSet, append_seen_ids]

/-- Claim C1 counterexample: a successful fetch that returns a record whose provider_id
is already on the Ledger still emits that record to the Output Sink: run_one moves every
created CSV row into outputs/ before any Ledger comparison, so the emitted rows are not
filtered (only the Ledger append is — here nothing new is appended). -/
theorem emitted_rows_not_ledger_filtered :
    sampleRow.placeId ∈ sampleState.ledger ∧
    (mainStep 1 sampleState (FetchOutcome.succeeded [sampleRow])).outputs = [sampleRow] ∧
    (mainStep 1 sampleState (FetchOutcome.succeeded [sampleRow])).ledger = ["n_101"] := by
  refine ⟨?_, rfl, ?_⟩ <;> decide

/-- Claim C1 amended: on a successful fetch, all returned records are written to the
Output Sink unfiltered; the Dedup Ledger filter governs only the appended ids — exactly
the returned ids absent from the seen set are appended — so, given that the seen set
contains every id on the Ledger (as main establishes by loading the Ledger into the seen
set), no provider_id already on the Ledger is ever appended to it again. -/
theorem success_emits_all_filters_ledger_append (total : Nat) (s : SchedState)
    (rows : List Row) (hsub : ∀ x ∈ s.ledger, x ∈ s.seen) :
    (mainStep total s (FetchOutcome.succeeded rows)).outputs = s.outputs ++ rows ∧
    (mainStep total s (FetchOutcome.succeeded rows)).ledger =
      s.ledger ++ diffSet (rowIds rows) s.seen ∧
    ∀ x ∈ diffSet (rowIds rows) s.seen, x ∉ s.ledger := by
  refine ⟨rfl, rfl, ?_⟩
  intro x hx hxl
  have hns : x ∉ s.seen := by
    have hp := List.of_mem_filter hx
    simpa using hp
  exact hns (hsub x hxl)

/-- Witness for success_emits_all_filters_ledger_append at the sample state. -/
theorem success_emits_witness :
    (mainStep 1 sampleState (FetchOutcome.succeeded [sampleRow])).outputs =
      sampleState.outputs ++ [sampleRow] ∧
    (mainStep 1 sampleState (FetchOutcome.succeeded [sampleRow])).ledger =
      sampleState.ledger ++ diffSet (rowIds [sampleRow]) sampleState.seen :=
  ⟨(success_emits_all_filters_ledger_append 1 sampleState [sampleRow]
      (fun x hx => by simpa using hx)).1,
   (success_emits_all_filters_ledger_append 1 sampleState [sampleRow]
      (fun x hx => by simpa using hx)).2.1⟩

/-- Claim C8 counterexample: with a ledger file holding one unparsable line followed by
one valid line, load_seen_ids silently returns the partial seen set built from the
parsable entry — the per-line except swallows the error and the run proceeds, it does
not fail. -/
theorem ledger_invalid_line_tolerated :
    load_seen_ids (some [LedgerLine.invalid, LedgerLine.obj (some "n_1")]) = ["n_1"] := by
  decide

/-- Lines that contribute no id (blank, unparsable, or without a truthy place_id) are
absorbed by the fold. -/
theorem foldl_seenStep_filter (lines : List LedgerLine) :
    ∀ acc : List String,
      lines.foldl seenStep acc = (lines.filter LedgerLine.isParsedId).foldl seenStep acc := by
  induction lines with
  | nil => intro acc; rfl
  | cons l rest ih =>
    intro acc
    cases l with
    | blank => simpa [seenStep, LedgerLine.isParsedId] using ih acc
    | invalid => simpa [seenStep, LedgerLine.isParsedId] using ih acc
    | obj pid =>
      cases pid with
      | none => simpa [seenStep, LedgerLine.isParsedId] using ih acc
      | some s =>
        by_cases hs : s.isEmpty
        · simpa [seenStep, LedgerLine.isParsedId, hs] using ih acc
        · simpa [seenStep, LedgerLine.isParsedId, hs] using ih (insertSet acc s)

/-- Claim C8 amended: an unreadable or invalid Ledger entry does not fail the run: the
startup load silently skips every line that does not parse to a truthy place_id and
proceeds with the partial seen set built from the parsable entries, and a missing ledger
file yields the empty seen set. -/
theorem invalid_ledger_proceeds_partial (lines : List LedgerLine) :
    load_seen_ids (some lines) =
      load_seen_ids (some (lines.filter LedgerLine.isParsedId)) ∧
    load_seen_ids none = [] := by
  refine ⟨?_, rfl⟩
  simp only [load_seen_ids]
  exact foldl_seenStep_filter lines []

/-- Claim C3 counterexample: against a provider that always returns a throttling status,
the geocode boundary call performs no wait and no retry — it issues exactly one request
and raises (raise_for_status propagates, crashing the one-location script) — instead of
retrying with backoff and degrading to an empty no-candidates result at the call. -/
theorem throttle_not_retried :
    geocode_nominatim alwaysThrottle = (GeocodeOutcome.raised, 1) ∧
    GeocodeOutcome.raised ≠ GeocodeOutcome.notFound := by
  refine ⟨?_, ?_⟩ <;> decide

/-- Claim C3 amended: a geocode boundary call makes exactly one attempt whatever the
provider does; a throttling or any other 4xx/5xx status, a network timeout, and a
malformed payload all make the call raise immediately rather than wait and retry; the
crashed subprocess surfaces at the Scheduler as a failed run_one with an empty id set,
so the fetch-and-classify invocation still terminates with an empty result. -/
theorem boundary_call_single_attempt (provider : Nat → NominatimResponse) :
    (geocode_nominatim provider).2 = 1 ∧
    (∀ (code : Nat) (body : Option (List (ℚ × ℚ))), 400 ≤ code → code ≤ 599 →
      provider 0 = NominatimResponse.status code body →
      (geocode_nominatim provider).1 = GeocodeOutcome.raised) ∧
    (provider 0 = NominatimResponse.timeout →
      (geocode_nominatim provider).1 = GeocodeOutcome.raised) ∧
    (∀ code : Nat, provider 0 = NominatimResponse.status code none →
      (geocode_nominatim provider).1 = GeocodeOutcome.raised) ∧
    run_one FetchOutcome.failed = ([], []) := by
  refine ⟨rfl, ?_, ?_, ?_, rfl⟩
  · intro code body h4 h5 hp
    simp only [geocode_nominatim, hp, geocode_once]
    rw [if_pos ⟨h4, h5⟩]
  · intro hp
    simp only [geocode_nominatim, hp, geocode_once]
  · intro code hp
    simp only [geocode_nominatim, hp, geocode_once]
    split
    · rfl
    · rfl

/-- Witness for boundary_call_single_attempt at the always-throttling provider. -/
theorem boundary_call_single_attempt_witness :
    (geocode_nominatim alwaysThrottle).1 = GeocodeOutcome.raised ∧
      (geocode_nominatim alwaysThrottle).2 = 1 ∧
      run_one FetchOutcome.failed = ([], []) := by
  have h := boundary_call_single_attempt alwaysThrottle
  exact ⟨h.2.1 429 (some []) (by decide) (by decide) rfl, h.1, h.2.2.2.2⟩

/-- Claim C5 counterexample: in the Places pipeline the final fallback ignores the
search pass that found the candidate: a candidate found by a wholesale keyword search,
whose name and types carry no wholesale signal and whose types are outside the retail
table — clauses (a) and (b) do not apply — is classified ("", "retail"), not the
wholesale category of the pass. -/
theorem places_fallback_ignores_pass :
    (strContains "wholesale" (placesBlob "Acme Foods" []) = false ∧
     strContains "distributor" (placesBlob "Acme Foods" []) = false ∧
     strContains "merchant wholesaler" (placesBlob "Acme Foods" []) = false ∧
     List.find? (fun t => (GOOGLE_TYPE_TO_NAICS.lookup t).isSome) ([] : List String) =
       none) ∧
    infer_naics_and_segment "Acme Foods" [] = ("", "retail") ∧
    ("retail" : String) ≠ "wholesale" := by
  refine ⟨?_, ?_, ?_⟩ <;> decide

/-- Claim C5 amended: classification precedence as implemented.  OSM pipeline, when a
configured tag was detected on the element: (a) the shop=wholesale tag or a wholesale
keyword anywhere in the name-and-tags blob routes to wholesale with the keyword-table
lookup (default code when no keyword matches); (b) otherwise retail with the fixed
retail table code for the detected tag.  (c) When no configured tag is detected the
element falls back to the search-pass category with an empty code — even if its name
contains wholesale keywords.  Places pipeline: (a) and (b) as claimed, but the final
fallback is always retail with an empty code, regardless of the search pass. -/
theorem classification_precedence (name : String) (tags : List (String × String))
    (hint : String) (types : List String) :
    (∀ kv, detect_matched_kv tags = some kv →
      (kv = ("shop", "wholesale") ∨
        strContains "wholesale" (osmBlob name tags) = true ∨
        strContains "distributor" (osmBlob name tags) = true ∨
        strContains "merchant wholesaler" (osmBlob name tags) = true) →
      classify_element name tags hint =
        ("wholesale", infer_wholesale_naics (osmBlob name tags))) ∧
    (∀ kv, detect_matched_kv tags = some kv → kv ≠ ("shop", "wholesale") →
      strContains "wholesale" (osmBlob name tags) = false →
      strContains "distributor" (osmBlob name tags) = false →
      strContains "merchant wholesaler" (osmBlob name tags) = false →
      classify_element name tags hint = ("retail", (OSM_TO_NAICS_RETAIL.lookup kv).getD "")) ∧
    (detect_matched_kv tags = none → classify_element name tags hint = (hint, "")) ∧
    (WHOLESALE_KEYWORD_TO_NAICS.find? (fun kc => strContains kc.1 (osmBlob name tags)) =
        none →
      infer_wholesale_naics (osmBlob name tags) = DEFAULT_WHOLESALE_NAICS) ∧
    ((strContains "wholesale" (placesBlob name types) = true ∨
        strContains "distributor" (placesBlob name types) = true ∨
        strContains "merchant wholesaler" (placesBlob name types) = true) →
      infer_naics_and_segment name types =
        (detect_wholesale_naics_from_keywords (placesBlob name types), "wholesale")) ∧
    (∀ t, strContains "wholesale" (placesBlob name types) = false →
      strContains "distributor" (placesBlob name types) = false →
      strContains "merchant wholesaler" (placesBlob name types) = false →
      types.find? (fun u => (GOOGLE_TYPE_TO_NAICS.lookup u).isSome) = some t →
      infer_naics_and_segment name types = ((GOOGLE_TYPE_TO_NAICS.lookup t).getD "", "retail")) ∧
    (strContains "wholesale" (placesBlob name types) = false →
      strContains "distributor" (placesBlob name types) = false →
      strContains "merchant wholesaler" (placesBlob name types) = false →
      types.find? (fun u => (GOOGLE_TYPE_TO_NAICS.lookup u).isSome) = none →
      infer_naics_and_segment name types = ("", "retail")) := by
  refine ⟨?_, ?_, ?_, ?_, ?_, ?_, ?_⟩
  · intro kv hkv hsig
    simp only [classify_element, hkv]
    rcases hsig with hkv2 | h1 | h1 | h1
    · subst hkv2
      simp [infer_segment_and_naics]
    all_goals
      simp only [infer_segment_and_naics, h1]
      split
      · rfl
      · simp
  · intro kv hkv hne h1 h2 h3
    have hne2 : ¬(kv.1 = "shop" ∧ kv.2 = "wholesale") := by
      intro hc
      apply hne
      obtain ⟨ha, hb⟩ := hc
      cases kv
      simp_all
    simp only [classify_element, hkv, infer_segment_and_naics, h1, h2, h3]
    rw [if_neg hne2]
    simp
  · intro hnone
    simp only [classify_element, hnone]
  · intro hfind
    simp only [infer_wholesale_naics, hfind]
  · intro hsig
    rcases hsig with h1 | h1 | h1 <;>
      simp only [infer_naics_and_segment, h1] <;> simp
  · intro t h1 h2 h3 hf
    simp only [infer_naics_and_segment, h1, h2, h3, hf]
    simp
  · intro h1 h2 h3 hf
    simp only [infer_naics_and_segment, h1, h2, h3, hf]
    simp

/-- Witness for classification_precedence: the spec scenario candidate, a supermarket
named Hannaford detected via shop=supermarket, classifies as retail with code 445110. -/
theorem classification_precedence_witness :
    classify_element "Hannaford" [("shop", "supermarket")] "retail" = ("retail", "445110") := by
  have h := (classification_precedence "Hannaford" [("shop", "supermarket")] "retail" []).2.1
    ("shop", "supermarket") (by decide) (by decide) (by decide) (by decide) (by decide)
  rw [h]
  decide

/-- parse_elements invariant: the final seen set keeps everything initially seen, every
emitted row carries an id that lands in the final seen set and was not initially seen,
and the emitted ids are pairwise distinct. -/
theorem parse_elements_spec (els : List OsmElement) (location hint : String) :
    ∀ seen : List String,
      (∀ x ∈ seen, x ∈ (parse_elements els location hint seen).2) ∧
      (∀ r ∈ (parse_elements els location hint seen).1,
        r.placeId ∈ (parse_elements els location hint seen).2 ∧ r.placeId ∉ seen) ∧
      ((parse_elements els location hint seen).1.map Row.placeId).Nodup := by
  induction els with
  | nil =>
    intro seen
    exact ⟨fun x hx => hx, fun r hr => absurd hr (List.not_mem_nil r), List.nodup_nil⟩
  | cons el rest ih =>
    intro seen
    by_cases hmem : element_uid el ∈ seen
    · simp only [parse_elements, if_pos hmem]
      exact ih seen
    · simp only [parse_elements, if_neg hmem]
      obtain ⟨ih1, ih2, ih3⟩ := ih (element_uid el :: seen)
      refine ⟨?_, ?_, ?_⟩
      · intro x hx
        exact ih1 x (List.mem_cons_of_mem _ hx)
      · intro r hr
        rcases List.mem_cons.mp hr with hr1 | hr2
        · subst hr1
          refine ⟨?_, ?_⟩
          · have : (mkElementRow el location hint).placeId = element_uid el := rfl
            rw [this]
            exact ih1 _ (List.mem_cons_self _ _)
          · simpa [mkElementRow] using hmem
        · obtain ⟨ha, hb⟩ := ih2 r hr2
          exact ⟨ha, fun hc => hb (List.mem_cons_of_mem _ hc)⟩
      · simp only [List.map_cons]
        refine List.nodup_cons.mpr ⟨?_, ih3⟩
        intro hin
        rw [List.mem_map] at hin
        obtain ⟨r, hr, heq⟩ := hin
        apply (ih2 r hr).2
        rw [heq]
        exact List.mem_cons_self _ _

/-- Claim C7: within a single invocation of the fetch-and-classify operation, candidates
are deduplicated by provider id across both the retail and the wholesale pass (one seen
set is shared), so the returned rows carry pairwise distinct provider ids. -/
theorem single_invocation_ids_nodup (location : String) (geo : GeocodeOutcome)
    (retailEls wholesaleEls : List OsmElement) (rows : List Row)
    (h : run_one_location_osm location geo retailEls wholesaleEls = Except.ok rows) :
    (rows.map Row.placeId).Nodup := by
  cases geo with
  | raised => simp [run_one_location_osm] at h
  | notFound =>
    simp only [run_one_location_osm] at h
    obtain rfl : ([] : List Row) = rows := by simpa using h
    exact List.nodup_nil
  | found lat lon =>
    simp only [run_one_location_osm] at h
    split at h
    · obtain rfl : ([] : List Row) = rows := by simpa using h
      exact List.nodup_nil
    · obtain rfl :
        (parse_elements retailEls location "retail" []).1 ++
          (parse_elements wholesaleEls location "wholesale"
            (parse_elements retailEls location "retail" []).2).1 = rows := by
        simpa using h
      obtain ⟨r1a, r1b, r1c⟩ := parse_elements_spec retailEls location "retail" []
      obtain ⟨r2a, r2b, r2c⟩ := parse_elements_spec wholesaleEls location "wholesale"
        (parse_elements retailEls location "retail" []).2
      rw [List.map_append]
      rw [List.nodup_append]
      refine ⟨r1c, r2c, ?_⟩
      intro x hx1 hx2
      rw [List.mem_map] at hx1 hx2
      obtain ⟨r1, hr1, he1⟩ := hx1
      obtain ⟨r2, hr2, he2⟩ := hx2
      apply (r2b r2 hr2).2
      rw [he2, ← he1]
      exact (r1b r1 hr1).1

/-- Witness for single_invocation_ids_nodup: the same element fed to both passes is
emitted once. -/
theorem single_invocation_ids_nodup_witness :
    (([mkElementRow sampleEl "Shelton, CT" "retail"].map Row.placeId)).Nodup :=
  single_invocation_ids_nodup "Shelton, CT" (GeocodeOutcome.found 41 (-73)) [sampleEl]
    [sampleEl] [mkElementRow sampleEl "Shelton, CT" "retail"] rfl

/-- The trace of indices visited by n loop iterations is the arithmetic progression of
the start index modulo the list length. -/
theorem schedTrace_eq_map (total : Nat) (h0 : 0 < total) :
    ∀ (n : Nat) (s : SchedState) (outcomes : Nat → FetchOutcome), s.idx < total →
      schedTrace total outcomes s n =
        (List.range n).map (fun k => (s.idx + k) % total) := by
  intro n
  induction n with
  | zero => intro s outcomes hs; rfl
  | succ m ih =>
    intro s outcomes hs
    have hstep : (mainStep total s (outcomes 0)).idx = (s.idx + 1) % total := rfl
    have h2 : (mainStep total s (outcomes 0)).idx < total := by
      rw [hstep]; exact Nat.mod_lt _ h0
    have hrec := ih (mainStep total s (outcomes 0)) (fun k => outcomes (k + 1)) h2
    calc schedTrace total outcomes s (m + 1)
        = s.idx ::
            schedTrace total (fun k => outcomes (k + 1)) (mainStep total s (outcomes 0)) m := rfl
      _ = s.idx :: (List.range m).map (fun k => ((s.idx + 1) % total + k) % total) := by
          rw [hrec, hstep]
      _ = s.idx :: (List.range m).map (fun k => (s.idx + (k + 1)) % total) := by
          congr 1
          apply List.map_congr_left
          intro k _
          rw [Nat.mod_add_mod]
          congr 1
          omega
      _ = (List.range (m + 1)).map (fun k => (s.idx + k) % total) := by
          rw [List.range_succ_eq_map, List.map_cons, List.map_map]
          congr 1
          rw [Nat.add_zero, Nat.mod_eq_of_lt hs]

/-- The progression (start + k) % total for k < total visits every residue exactly
once. -/
theorem visit_map_perm (total start : Nat) (h0 : 0 < total) :
    ((List.range total).map (fun k => (start + k) % total)).Perm (List.range total) := by
  have hnodup : ((List.range total).map (fun k => (start + k) % total)).Nodup := by
    refine List.Nodup.map_on ?_ (List.nodup_range total)
    intro x hx y hy hxy
    rw [List.mem_range] at hx hy
    have hcong : x ≡ y [MOD total] := Nat.ModEq.add_left_cancel' start hxy
    calc x = x % total := (Nat.mod_eq_of_lt hx).symm
      _ = y % total := hcong
      _ = y := Nat.mod_eq_of_lt hy
  have hsub : ((List.range total).map (fun k => (start + k) % total)) ⊆ List.range total := by
    intro x hx
    rw [List.mem_map] at hx
    obtain ⟨k, _, hk⟩ := hx
    rw [List.mem_range, ← hk]
    exact Nat.mod_lt _ h0
  have hlen : (List.range total).length ≤
      ((List.range total).map (fun k => (start + k) % total)).length := by
    rw [List.length_map]
  exact (hnodup.subperm hsub).perm_of_length_le hlen

/-- Claim C6: each attempted location advances the index to (idx + 1) % total, and total
consecutive iterations starting at any in-range index visit every index in [0, total)
exactly once before any repeats. -/
theorem wraparound_visits_all (total : Nat) (s : SchedState)
    (outcomes : Nat → FetchOutcome) (h0 : 0 < total) (hs : s.idx < total) :
    (∀ o, (mainStep total s o).idx = (s.idx + 1) % total) ∧
    (schedTrace total outcomes s total).Perm (List.range total) := by
  refine ⟨fun o => rfl, ?_⟩
  rw [schedTrace_eq_map total h0 total s outcomes hs]
  exact visit_map_perm total s.idx h0

/-- Witness for wraparound_visits_all on a three-entry list starting at index 1. -/
theorem wraparound_visits_all_witness :
    (schedTrace 3 (fun _ => FetchOutcome.failed) sampleState3 3).Perm (List.range 3) :=
  (wraparound_visits_all 3 sampleState3 (fun _ => FetchOutcome.failed) (by decide)
    (by decide)).2

end BizContacts
